import Mathlib

/-!
Shallow embedding of the core algorithms of the Audio_Translator repository:
the incremental transcript stitcher (`gui.py`), the sample
buffer of the live stream recorder and segmentation scheduler (`stream_recorder.py`), the batch
silence-interval segmenter and fixed-window fallback (`transcription_base.py`),
the activity (speech/silence) state machine, and the recorder start/stop
error-handling paths.  Each definition is translated from the corresponding
Python source; theorems settle the specification claims against them.
-/

namespace AudioTranslator

/-! ### Incremental stitcher: `gui.py`, `AudioRecorderGUI._extract_new_content` -/

/-- Python `str.split()` with no argument: split on runs of whitespace and
drop empty pieces.  The accumulator holds the characters of the current word
in reverse order. -/
def pyWordsAux : List Char → List Char → List String
  | [], acc => if acc = [] then [] else [String.mk acc.reverse]
  | c :: cs, acc =>
    if c.isWhitespace then
      if acc = [] then pyWordsAux cs []
      else String.mk acc.reverse :: pyWordsAux cs []
    else pyWordsAux cs (c :: acc)

/-- Python `text.split()` applied to a whole string. -/
def pyWords (s : String) : List String := pyWordsAux s.toList []

/-- The inner `for j in range(...)` loop of `_extract_new_content`
(gui.py lines 419-423): do the `ot` words of `wc` starting at position `i`
equal the last `ot` words of `wp`?  The Python loop also guards the indices
`i+j < len(words_current)` and `j < len(words_previous)`. -/
def matchAt (wp wc : List String) (ot i : Nat) : Bool :=
  (List.range ot).all fun j =>
    decide (i + j < wc.length) && decide (j < wp.length) &&
      decide (wc.getD (i + j) "" = wp.getD (wp.length - ot + j) "")

/-- The outer `for i in range(len(words_current) - overlap_threshold + 1)`
loop (gui.py line 416): the first index whose window matches, scanning left
to right. -/
def findOverlapIdx (wp wc : List String) (ot : Nat) : Option Nat :=
  (List.range (wc.length - ot + 1)).find? (matchAt wp wc ot)

/-- The `gui.py` method `_extract_new_content(previous_text, current_text)`
(lines 384-433), word for word: empty previous text returns the current
text; identical texts return the empty string; a shorter current text is
returned whole; otherwise a single overlap length
`overlap_threshold = min(len(words_previous), 5)` is tried at every
position, and on failure the second half of the current words is
returned. -/
def extract_new_content (previous_text current_text : String) : String :=
  if previous_text = "" then current_text
  else if previous_text = current_text then ""
  else
    let words_previous := pyWords previous_text
    let words_current := pyWords current_text
    if words_current.length < words_previous.length then current_text
    else
      let overlap_threshold := min words_previous.length 5
      match findOverlapIdx words_previous words_current overlap_threshold with
      | some i => String.intercalate (" ") (words_current.drop (i + overlap_threshold))
      | none => String.intercalate (" ") (words_current.drop (words_current.length / 2))

example : pyWords "the quick brown fox" = ["the", "quick", "brown", "fox"] := by decide

example : extract_new_content "" "hello world" = "hello world" := by decide

example : extract_new_content "abc def" "abc def" = "" := by decide

example :
    extract_new_content "the quick brown fox" "quick brown fox jumps high" =
      "fox jumps high" := by decide

/-! ### Sample buffer: `stream_recorder.py`

`_audio_callback` (lines 117-122) appends each incoming chunk to the shared
`self._accumulated_buffer` under the buffer lock; nothing in the live session
ever removes samples from that shared buffer.  `_process_audio_loop`
(lines 159-207) copies the shared buffer into a local variable
`audio_buffer` and, when a cut triggers, truncates only that local copy with
`audio_buffer = audio_buffer[-(max_buffer_size):]`. -/

/-- One operation on the shared accumulated buffer within one live session:
either the PyAudio callback appends a chunk, or a scheduler tick runs (the
tick snapshots and may truncate its local copy, which leaves the shared
buffer untouched). -/
inductive BufOp (α : Type) where
  | append (chunk : List α) : BufOp α
  | tick : BufOp α

/-- The shared accumulated buffer after a sequence of operations, starting
from the empty buffer set up by `start()` (line 263). -/
def runBufferOps {α : Type} (ops : List (BufOp α)) : List α :=
  ops.foldl
    (fun buf op =>
      match op with
      | BufOp.append chunk => buf ++ chunk
      | BufOp.tick => buf)
    []

/-- The chunks appended over a session, in order. -/
def appendedChunks {α : Type} (ops : List (BufOp α)) : List (List α) :=
  ops.filterMap
    (fun op =>
      match op with
      | BufOp.append chunk => some chunk
      | BufOp.tick => none)

/-- The snapshot truncation of `_process_audio_loop` (lines 205-207):
`if len(audio_buffer) > max_buffer_size: audio_buffer = audio_buffer[-(max_buffer_size):]`. -/
def truncateSnapshot {α : Type} (maxBufferSize : Nat) (snap : List α) : List α :=
  if maxBufferSize < snap.length then snap.drop (snap.length - maxBufferSize) else snap

/-- The bound `max_buffer_size = int(60 * self.sample_rate)` (line 154): sixty seconds
of samples. -/
def maxBufferSamples (sampleRate : Nat) : Nat := 60 * sampleRate

/-! ### Live scheduler tick: `stream_recorder.py`, `_process_audio_loop`
(lines 157-231).  Wall-clock instants (Python `time.time()` floats) are
embedded as rationals. -/

/-- The data one loop iteration reads: the shared buffer length at snapshot
time, the position reached at the previous cut, the current and previous
processing times, and the speech/silence state written by the audio
callback. -/
structure TickInput where
  bufferLen : Nat
  lastPosition : Nat
  currentTime : ℚ
  lastProcessTime : ℚ
  isSpeech : Bool
  silenceStart : ℚ
  speechStart : ℚ

/-- The `should_process` decision of one iteration (lines 172-201).
Case 1: natural pause (`MIN_SILENCE_DURATION = 0.7`); case 2: prolonged
speech (`MAX_SPEECH_DURATION = 7.0`); case 3: adaptive interval (2.0 s while
speaking, 4.0 s while silent) with enough audio; case 4: forced processing
(`force_process_interval = 5.0`) with any new samples.  `minSamples` is
`int(1.5 * sample_rate)`. -/
def shouldProcess (minSamples : Nat) (inp : TickInput) : Bool :=
  let newSamples := inp.bufferLen - inp.lastPosition
  let timeSince := inp.currentTime - inp.lastProcessTime
  let case1 := !inp.isSpeech && decide (0 < inp.silenceStart) &&
    decide ((7 : ℚ) / 10 ≤ inp.currentTime - inp.silenceStart) &&
    decide (minSamples ≤ newSamples)
  let case2 := inp.isSpeech && decide (0 < inp.speechStart) &&
    decide ((7 : ℚ) ≤ inp.currentTime - inp.speechStart) &&
    decide (minSamples ≤ newSamples)
  let case3 := decide ((if inp.isSpeech then (2 : ℚ) else 4) ≤ timeSince) &&
    decide (minSamples ≤ newSamples)
  let case4 := decide ((5 : ℚ) ≤ timeSince) && decide (0 < newSamples)
  case1 || case2 || case3 || case4

/-- Number of transcription submissions one loop iteration makes: an empty
buffer sleeps and continues (lines 160-162); otherwise the single
`transcribe_stream` call inside the one `if should_process:` block
(lines 203-213) runs exactly once when the decision is true. -/
def tickSubmissions (minSamples : Nat) (inp : TickInput) : Nat :=
  if inp.bufferLen = 0 then 0
  else if shouldProcess minSamples inp then 1 else 0

/-! ### Error flow of the live scheduler and of the chunk transcriber -/

/-- The body of the `if should_process:` block of `_process_audio_loop`
(lines 203-229), with the gateway call and the user callback modelled as
fallible functions (`Except.error` = a raised Python exception).  The
`transcribe_stream` call at line 210 is not wrapped in any `try`, so its
error propagates (terminating the loop thread); the `on_transcription`
callback at lines 220-223 is wrapped in `try/except`, so its error is
swallowed. -/
def processSnapshot (transcribe_stream : List Int → Except String String)
    (on_transcription : Option (String → Except String Unit))
    (audioBuffer : List Int) (maxBufferSize : Nat) : Except String Unit :=
  match transcribe_stream (truncateSnapshot maxBufferSize audioBuffer) with
  | Except.error e => Except.error e
  | Except.ok transcription =>
    match on_transcription with
    | some cb =>
      if transcription = "" then Except.ok ()
      else
        match cb transcription with
        | Except.ok _ => Except.ok ()
        | Except.error _ => Except.ok ()
    | none => Except.ok ()

/-- The `audio_recorder.py` method `_transcribe_chunk` (lines 211-236): the whole body
is wrapped in `try/except`; on success the callback receives the
transcription result, on any exception it receives `f"[Erro: {str(e)}]"`.
This function returns the text handed to the callback. -/
def transcribeChunkFragment (transcribe_audio : List Int → Except String String)
    (chunk : List Int) : String :=
  match transcribe_audio chunk with
  | Except.ok result => result
  | Except.error e => "[Erro: " ++ e ++ "]"

/-! ### Batch segmenter, silence path: `transcription_base.py`,
`transcribe_from_recorder` -/

/-- The interval-merging loop (lines 174-188): walk the non-silent
intervals keeping a current interval; a following interval whose start is
within `maxGap` of the current end extends the current interval, anything
further away flushes it.  `interval[0] - current_interval[1]` is computed
with Python integers, hence the `Int` subtraction. -/
def mergeLoop (maxGap : Int) : List (Nat × Nat) → Option (Nat × Nat) → List (Nat × Nat)
  | [], none => []
  | [], some cur => [cur]
  | iv :: rest, none => mergeLoop maxGap rest (some iv)
  | iv :: rest, some cur =>
    if (iv.1 : Int) - (cur.2 : Int) ≤ maxGap then mergeLoop maxGap rest (some (cur.1, iv.2))
    else cur :: mergeLoop maxGap rest (some iv)

/-- The threshold `max_gap = int(0.3 * sr)` (line 172); at the sample rates of the repository
(16000 in particular) the float expression evaluates to `3 * sr / 10`
exactly. -/
def maxGapSamples (sr : Nat) : Nat := 3 * sr / 10

/-- The whole merge pass, started with `current_interval = None`. -/
def mergeIntervals (sr : Nat) (nonSilent : List (Nat × Nat)) : List (Nat × Nat) :=
  mergeLoop (maxGapSamples sr) nonSilent none

example :
    mergeIntervals 16000 [(0, 160000), (163200, 320000)] = [(0, 320000)] := by decide

/-- State threaded through the per-segment loop of the silence path: the
raw fragments recorded so far (`raw_segments`), the running context, and a
count of transcription-gateway invocations. -/
structure SegLoopState where
  rawSegments : List String
  context : Option String
  gatewayCalls : Nat
deriving DecidableEq

/-- One iteration of the per-segment loop of the silence path
(lines 230-296), for a segment whose frame window is
`[startFrame, startFrame + numFrames)` with
`num_frames = min(num_frames, n_frames - start_frame)` (line 239).
A segment shorter than 0.5 s (`segment_duration < 0.5`, i.e.
`2 * numFrames < rate`) is discarded before any gateway call (lines
257-261) and records nothing.  Otherwise the gateway (`transcribe_file`,
taking the window and the context) runs; an empty result on a segment
longer than 1.0 s is retried once on a window expanded by
`int(0.5 * rate)` backwards and `int(1.0 * rate)` in length (lines
267-280); the final text is appended to `raw_segments` and becomes the new
context when non-blank (lines 283-286). -/
def processIntervalStep (gw : Nat → Nat → Option String → String)
    (rate nFrames startFrame numFramesRaw : Nat) (st : SegLoopState) : SegLoopState :=
  let numFrames := min numFramesRaw (nFrames - startFrame)
  if 2 * numFrames < rate then st
  else
    let segText := gw startFrame numFrames st.context
    let retried :=
      if segText.trim = "" ∧ rate < numFrames then
        let expandedStart := startFrame - rate / 2
        let expandedFrames := min (nFrames - expandedStart) (numFrames + rate)
        (gw expandedStart expandedFrames st.context, 2)
      else (segText, 1)
    { rawSegments := st.rawSegments ++ [retried.1]
      context := if retried.1.trim = "" then st.context else some retried.1
      gatewayCalls := st.gatewayCalls + retried.2 }

/-! ### Batch segmenter, fixed-window fallback: `transcription_base.py`,
lines 298-370 -/

/-- The window length `segment_frames = rate * smaller_segment_length` with
`smaller_segment_length = 6` (lines 107, 301). -/
def segmentFrames (rate : Nat) : Nat := rate * 6

/-- The stride `effective_step = int(segment_frames * 0.25)` (line 308); multiplying
an integer float by 0.25 is exact, so this is Nat division by 4. -/
def effectiveStep (rate : Nat) : Nat := segmentFrames rate / 4

/-- Number of iterations of `for i in range(0, n_frames, effective_step)`:
the count of multiples of `step` below `nFrames`. -/
def numWindows (nFrames step : Nat) : Nat := (nFrames + step - 1) / step

/-- The read length `frames_to_read = min(segment_frames, n_frames - start_pos)` (line 318). -/
def framesToRead (rate nFrames i : Nat) : Nat := min (segmentFrames rate) (nFrames - i)

/-- The list of `(start, length)` windows the fixed-window fallback
actually processes.  Iteration `k` (0-based; `segment_count = k + 1`)
starts at `i = k * effective_step`; a window with
`frames_to_read < rate * 1.5` (embedded exactly as
`2 * frames_to_read < 3 * rate`) and `segment_count > 1` is skipped
(lines 320-323), every other window is transcribed. -/
def windowAt (rate nFrames k : Nat) : Option (Nat × Nat) :=
  if 2 * framesToRead rate nFrames (k * effectiveStep rate) < 3 * rate ∧ 0 < k then none
  else some (k * effectiveStep rate, framesToRead rate nFrames (k * effectiveStep rate))

/-- All windows the fallback loop transcribes, in order. -/
def fixedWindowSegments (rate nFrames : Nat) : List (Nat × Nat) :=
  (List.range (numWindows nFrames (effectiveStep rate))).filterMap (windowAt rate nFrames)

example :
    fixedWindowSegments 16000 200000 =
      [(0, 96000), (24000, 96000), (48000, 96000), (72000, 96000), (96000, 96000),
        (120000, 80000), (144000, 56000), (168000, 32000)] := by decide

/-! ### Voice activity state machine: `stream_recorder.py`,
`_audio_callback` lines 124-136 -/

/-- The speech/silence state the audio callback maintains:
`self._is_speech`, `self._speech_start`, `self._silence_start`. -/
structure ActivityState where
  isSpeech : Bool
  speechStart : ℚ
  silenceStart : ℚ
deriving DecidableEq

/-- The transition of `_audio_callback` lines 129-136: a non-silent chunk
while not speaking enters SPEAKING and records `speech_start = now`; a
silent chunk while speaking enters SILENT and records
`silence_start = now`; otherwise nothing changes. -/
def updateActivity (s : ActivityState) (isSilence : Bool) (now : ℚ) : ActivityState :=
  if !isSilence && !s.isSpeech then { s with isSpeech := true, speechStart := now }
  else if isSilence && s.isSpeech then { s with isSpeech := false, silenceStart := now }
  else s

/-- The sequence of states entered at transitions, over a trace of
`(is_silence, now)` chunk classifications: each element is the value of
`isSpeech` just after an update that changed it. -/
def transitionsOf (s : ActivityState) : List (Bool × ℚ) → List Bool
  | [] => []
  | (c, t) :: rest =>
    if (updateActivity s c t).isSpeech ≠ s.isSpeech then
      (updateActivity s c t).isSpeech :: transitionsOf (updateActivity s c t) rest
    else transitionsOf (updateActivity s c t) rest

/-! ### Recorder start-up: `stream_recorder.py`, `StreamRecorder.start`
(lines 233-290) and `whisper_transcriber.py`, `WhisperTranscriber` -/

/-- A transcriber as seen by `start()`: it may or may not define the
`clear_stream_context` attribute (itself a possibly-failing action). -/
structure Transcriber where
  clearStreamContext : Option (Except String Unit)

/-- The class `WhisperTranscriber` (whisper_transcriber.py lines 15-73) implements
only `transcribe_file`; it has no `clear_stream_context` attribute. -/
def whisperTranscriber : Transcriber := { clearStreamContext := none }

/-- The call `self.transcriber.clear_stream_context()` (line 266): attribute lookup
on an object without the method raises `AttributeError`. -/
def callClearStreamContext (t : Transcriber) : Except String Unit :=
  match t.clearStreamContext with
  | some r => r
  | none => Except.error "AttributeError"

/-- The `try:` block of `start()` (lines 242-285) as a sequence of fallible
steps: open the PyAudio stream (lines 244-256), clear the transcriber
stream context (line 266), start the processing thread (lines 275-279),
start the stream (line 282).  Any exception aborts the rest. -/
def startBody (t : Transcriber) (openStream startThread startStream : Except String Unit) :
    Except String Unit := do
  openStream
  callClearStreamContext t
  startThread
  startStream

/-- What `start()` is observed to do: its return value, whether the
`except` handler ran `self.stop()`, and whether a recording session began. -/
structure StartOutcome where
  returned : Bool
  stopCalled : Bool
  sessionStarted : Bool
deriving DecidableEq

/-- The method `StreamRecorder.start()` (lines 233-290): an already-active stream
returns `False` immediately (lines 238-240); otherwise the `try:` body
runs; on success `start()` returns `True` with a session running; on any
exception the handler logs, calls `self.stop()` and returns `False`
(lines 287-290). -/
def startRecorder (streamActive : Bool) (t : Transcriber)
    (openStream startThread startStream : Except String Unit) : StartOutcome :=
  if streamActive then { returned := false, stopCalled := false, sessionStarted := false }
  else
    match startBody t openStream startThread startStream with
    | Except.ok _ => { returned := true, stopCalled := false, sessionStarted := true }
    | Except.error _ => { returned := false, stopCalled := true, sessionStarted := false }

/-! ## Claim theorems -/

/-- Claim C1, counterexample: on previous_text = "the quick brown fox" and
current_text = "quick brown fox jumps high" the stitcher does NOT return
"jumps high".  The code uses the single overlap length
`min(len(words_previous), 5) = 4`, compares against the last four words
"the quick brown fox", finds no match, and falls back to the second half
of the current words. -/
theorem C1_counterexample :
    extract_new_content "the quick brown fox" "quick brown fox jumps high" ≠
      "jumps high" := by decide

/-- Claim C1, amended: on that input the stitcher returns "fox jumps high";
the single tried overlap length 4 finds no contiguous match of the last
four words of previous_text anywhere in current_text, so the fallback
returns the second half of the words of current_text. -/
theorem C1_theorem :
    extract_new_content "the quick brown fox" "quick brown fox jumps high" =
        "fox jumps high" ∧
      findOverlapIdx (pyWords "the quick brown fox")
        (pyWords "quick brown fox jumps high") 4 = none := by decide

/-- Claim C9: with an empty previous_text the stitcher returns current_text
unchanged, and with previous_text identical to current_text it returns the
empty string. -/
theorem C9_theorem (current t : String) :
    extract_new_content "" current = current ∧ extract_new_content t t = "" := by
  refine ⟨by simp [extract_new_content], ?_⟩
  by_cases h : t = ""
  · simp [extract_new_content, h]
  · simp [extract_new_content, h]

/-- Claim C2, counterexample: appending a single chunk of
`60 * 16000 + 1` samples followed by a scheduler tick (which truncates only
its local snapshot) leaves the shared sample buffer longer than
`max_buffer_samples` at the default 16 kHz rate: the shared buffer is never
truncated. -/
theorem C2_counterexample :
    ¬ (runBufferOps [BufOp.append (List.replicate 960001 (0 : Int)),
        BufOp.tick]).length ≤ maxBufferSamples 16000 := by
  have h : runBufferOps [BufOp.append (List.replicate 960001 (0 : Int)), BufOp.tick] =
      List.replicate 960001 (0 : Int) := rfl
  rw [h, List.length_replicate]
  decide

/-- A foldl-generalised description of the shared buffer contents. -/
lemma runBufferOps_loop {α : Type} (ops : List (BufOp α)) : ∀ buf : List α,
    (ops.foldl
      (fun buf op =>
        match op with
        | BufOp.append chunk => buf ++ chunk
        | BufOp.tick => buf)
      buf) = buf ++ (appendedChunks ops).flatten := by
  induction ops with
  | nil => intro buf; simp [appendedChunks]
  | cons op rest ih =>
    intro buf
    cases op with
    | append chunk => simp [List.foldl, appendedChunks, ih, List.append_assoc]
    | tick => simp [List.foldl, appendedChunks, ih]

/-- Claim C2, amended: within one live session the shared accumulated
buffer is exactly the concatenation, in arrival order, of every appended
chunk — no operation ever drops samples from it, so it is not bounded by
`max_buffer_samples`.  Truncation applies only to the per-tick snapshot:
the truncated snapshot is the suffix of the snapshot obtained by dropping
the oldest `length - max` samples (temporal order preserved), and its
length never exceeds `max_buffer_samples`. -/
theorem C2_theorem (ops : List (BufOp Int)) (snap : List Int) (maxB : Nat) :
    runBufferOps ops = (appendedChunks ops).flatten ∧
      truncateSnapshot maxB snap = snap.drop (snap.length - maxB) ∧
      (truncateSnapshot maxB snap).length ≤ maxB := by
  refine ⟨by simpa [runBufferOps] using runBufferOps_loop ops [], ?_, ?_⟩
  · unfold truncateSnapshot
    by_cases h : maxB < snap.length
    · rw [if_pos h]
    · rw [if_neg h]
      have : snap.length - maxB = 0 := by omega
      rw [this, List.drop_zero]
  · unfold truncateSnapshot
    by_cases h : maxB < snap.length
    · rw [if_pos h, List.length_drop]
      omega
    · rw [if_neg h]
      omega

/-- Claim C3, counterexample: an exception raised by the
gateway call `transcribe_stream` inside the live scheduler loop is not caught — the
loop body propagates it (here with a concrete buffer and no callback), so
the processing loop thread dies instead of continuing with an empty or
error-marked fragment. -/
theorem C3_counterexample :
    processSnapshot (fun _ => Except.error "RuntimeError") none [0] 960000 =
      Except.error "RuntimeError" := rfl

/-- Claim C3, amended: in the live scheduler loop only exceptions from the
`on_transcription` callback are caught; an exception from the gateway
call `transcribe_stream` propagates out of the loop body (terminating the
loop thread).  In the `AudioRecorder` realtime chunk path
(`_transcribe_chunk`), gateway errors are caught and surfaced to the
callback as an "[Erro: ...]"-marked fragment. -/
theorem C3_theorem (e cbe t : String) (buf chunk : List Int) (maxB : Nat)
    (cb : Option (String → Except String Unit)) :
    processSnapshot (fun _ => Except.error e) cb buf maxB = Except.error e ∧
      processSnapshot (fun _ => Except.ok t) (some fun _ => Except.error cbe) buf maxB =
        Except.ok () ∧
      transcribeChunkFragment (fun _ => Except.error e) chunk = "[Erro: " ++ e ++ "]" := by
  refine ⟨rfl, ?_, rfl⟩
  by_cases h : t = "" <;> simp [processSnapshot, h]

/-- Claim C10: if a step of `StreamRecorder.start()` raises — in particular
the `transcriber.clear_stream_context()` call on the repository
class `WhisperTranscriber`, which lacks that method and so raises
`AttributeError` — then `start()` catches the exception, calls `stop()`,
returns `False`, and no recording session begins. -/
theorem C10_theorem (startThread startStream : Except String Unit) :
    startRecorder false whisperTranscriber (Except.ok ()) startThread startStream =
        { returned := false, stopCalled := true, sessionStarted := false } ∧
      ∀ (t : Transcriber) (openStream : Except String Unit),
        (∃ e, startBody t openStream startThread startStream = Except.error e) →
        startRecorder false t openStream startThread startStream =
          { returned := false, stopCalled := true, sessionStarted := false } := by
  refine ⟨rfl, ?_⟩
  rintro t openStream ⟨e, he⟩
  simp [startRecorder, he]

/-- Claim C10, witness: a failing stream-open step with an otherwise
healthy transcriber-less setup concretely yields the
caught-stop-return-False outcome. -/
theorem C10_witness :
    startRecorder false whisperTranscriber (Except.error "OSError") (Except.ok ())
        (Except.ok ()) =
      { returned := false, stopCalled := true, sessionStarted := false } :=
  (C10_theorem (Except.ok ()) (Except.ok ())).2 whisperTranscriber
    (Except.error "OSError") ⟨"OSError", rfl⟩

/-- Claim C4: a tick never makes more than one transcription submission,
and any tick at which at least `force_process_interval = 5.0` seconds have
passed since the last processing and at least one new sample has
accumulated makes exactly one submission. -/
theorem C4_theorem (minSamples : Nat) (inp : TickInput) :
    tickSubmissions minSamples inp ≤ 1 ∧
      ((5 : ℚ) ≤ inp.currentTime - inp.lastProcessTime →
        0 < inp.bufferLen - inp.lastPosition →
        tickSubmissions minSamples inp = 1) := by
  constructor
  · unfold tickSubmissions
    split
    · omega
    · split <;> omega
  · intro h5 hnew
    have hb : ¬ inp.bufferLen = 0 := by omega
    have hsp : shouldProcess minSamples inp = true := by
      simp only [shouldProcess, Bool.or_eq_true, Bool.and_eq_true, decide_eq_true_eq]
      tauto
    unfold tickSubmissions
    rw [if_neg hb, if_pos hsp]

/-- Claim C4, witness: a concrete tick five seconds after the previous cut
with one fresh sample submits exactly once. -/
theorem C4_witness :
    tickSubmissions 24000
        { bufferLen := 1, lastPosition := 0, currentTime := 5, lastProcessTime := 0,
          isSpeech := false, silenceStart := 0, speechStart := 0 } = 1 :=
  (C4_theorem 24000
    { bufferLen := 1, lastPosition := 0, currentTime := 5, lastProcessTime := 0,
      isSpeech := false, silenceStart := 0, speechStart := 0 }).2
    (by norm_num) (by decide)

/-- Claim C5: in the silence path of the batch segmenter, a next interval
whose start is within `max_gap` of the end of the current interval is merged into a
single interval (the current interval absorbs its end); and on the
20-second, 16 kHz recording whose only silent gap is the 0.2 s span from
sample 160000 to 163200, the merge pass yields exactly one interval
covering the whole recording, the 3200-sample gap being below the
4800-sample (300 ms) threshold. -/
theorem C5_theorem (maxGap : Int) (s1 e1 s2 e2 : Nat) (rest : List (Nat × Nat))
    (h : (s2 : Int) - (e1 : Int) ≤ maxGap) :
    mergeLoop maxGap ((s2, e2) :: rest) (some (s1, e1)) =
        mergeLoop maxGap rest (some (s1, e2)) ∧
      mergeIntervals 16000 [(0, 160000), (163200, 320000)] = [(0, 320000)] := by
  refine ⟨?_, by decide⟩
  have hstep : mergeLoop maxGap ((s2, e2) :: rest) (some (s1, e1)) =
      if (s2 : Int) - (e1 : Int) ≤ maxGap then mergeLoop maxGap rest (some (s1, e2))
      else (s1, e1) :: mergeLoop maxGap rest (some (s2, e2)) := rfl
  rw [hstep, if_pos h]

/-- Claim C5, witness: the merge step applied to the concrete gap of the
20-second example. -/
theorem C5_witness :
    mergeLoop 4800 [(163200, 320000)] (some (0, 160000)) =
      mergeLoop 4800 [] (some (0, 320000)) :=
  (C5_theorem 4800 0 160000 163200 320000 [] (by decide)).1

/-- The entered-state sequence of any trace strictly alternates, starting
against the initial state. -/
lemma chain_transitions (trace : List (Bool × ℚ)) : ∀ s : ActivityState,
    List.Chain' (· ≠ ·) (s.isSpeech :: transitionsOf s trace) := by
  induction trace with
  | nil => intro s; simp [transitionsOf]
  | cons ct rest ih =>
    intro s
    obtain ⟨c, t⟩ := ct
    unfold transitionsOf
    by_cases h : (updateActivity s c t).isSpeech = s.isSpeech
    · rw [if_neg (by simpa using h), ← h]
      exact ih (updateActivity s c t)
    · rw [if_pos h]
      exact List.chain'_cons.mpr ⟨Ne.symm h, ih (updateActivity s c t)⟩

/-- Claim C7: the activity state machine transitions only on a
classification change — a non-silent chunk while not speaking enters
SPEAKING recording `speech_start = now`, a silent chunk while speaking
enters SILENT recording `silence_start = now`, a same-classification chunk
changes nothing — and over any trace of chunk classifications the entered
states strictly alternate (no two SPEAKING entries without an intervening
SILENT entry, and vice versa). -/
theorem C7_theorem (s : ActivityState) (c : Bool) (now : ℚ) (trace : List (Bool × ℚ)) :
    (c = false → s.isSpeech = false →
        updateActivity s c now = { s with isSpeech := true, speechStart := now }) ∧
      (c = true → s.isSpeech = true →
        updateActivity s c now = { s with isSpeech := false, silenceStart := now }) ∧
      (c = !s.isSpeech → updateActivity s c now = s) ∧
      List.Chain' (· ≠ ·) (s.isSpeech :: transitionsOf s trace) := by
  refine ⟨?_, ?_, ?_, chain_transitions trace s⟩
  · intro hc hs
    simp [updateActivity, hc, hs]
  · intro hc hs
    simp [updateActivity, hc, hs]
  · intro hc
    cases hs : s.isSpeech <;> simp [hs] at hc <;> simp [updateActivity, hc, hs]

/-- Claim C7, witness: a non-silent chunk arriving at time 1 while silent
enters SPEAKING and records the speech start. -/
theorem C7_witness :
    updateActivity { isSpeech := false, speechStart := 0, silenceStart := 0 } false 1 =
      { ({ isSpeech := false, speechStart := 0, silenceStart := 0 } : ActivityState) with
        isSpeech := true, speechStart := 1 } :=
  (C7_theorem { isSpeech := false, speechStart := 0, silenceStart := 0 } false 1 []).1
    rfl rfl

/-- Claim C8: in the silence path of the batch segmenter, a segment whose
normalized duration is below 0.5 s (`2 * numFrames < rate`) is discarded
before the gateway is ever invoked: the loop state — recorded fragments,
context and gateway-call count — is left exactly as it was. -/
theorem C8_theorem (gw : Nat → Nat → Option String → String)
    (rate nFrames startFrame numFramesRaw : Nat) (st : SegLoopState)
    (h : 2 * min numFramesRaw (nFrames - startFrame) < rate) :
    processIntervalStep gw rate nFrames startFrame numFramesRaw st = st := by
  unfold processIntervalStep
  rw [if_pos h]

/-- Claim C8, witness: a quarter-second segment at 16 kHz is dropped with
no gateway call and no recorded fragment. -/
theorem C8_witness :
    processIntervalStep (fun _ _ _ => "txt") 16000 320000 0 4000
        { rawSegments := [], context := none, gatewayCalls := 0 } =
      { rawSegments := [], context := none, gatewayCalls := 0 } :=
  C8_theorem (fun _ _ _ => "txt") 16000 320000 0 4000
    { rawSegments := [], context := none, gatewayCalls := 0 } (by decide)

/-! ### Facts about the fixed-window fallback, leading to claim C6 -/

lemma effectiveStep_pos (rate : Nat) (hr : 0 < rate) : 0 < effectiveStep rate := by
  unfold effectiveStep segmentFrames
  omega

lemma two_effectiveStep_le (rate : Nat) : 2 * effectiveStep rate ≤ 3 * rate := by
  unfold effectiveStep segmentFrames
  omega

lemma lt_numWindows_of (step k nFrames : Nat) (hs : 0 < step) (h : k * step < nFrames) :
    k < numWindows nFrames step := by
  unfold numWindows
  rw [Nat.lt_iff_add_one_le, Nat.le_div_iff_mul_le hs, Nat.succ_mul]
  omega

lemma mul_lt_of_lt_numWindows (step k nFrames : Nat) (hs : 0 < step) (hn : 0 < nFrames)
    (h : k < numWindows nFrames step) : k * step < nFrames := by
  unfold numWindows at h
  have h1 : nFrames + step - 1 = (nFrames - 1) + step := by omega
  rw [h1, Nat.add_div_right _ hs] at h
  have h2 : k ≤ (nFrames - 1) / step := by omega
  have h3 : k * step ≤ ((nFrames - 1) / step) * step := Nat.mul_le_mul_right step h2
  have h4 : ((nFrames - 1) / step) * step ≤ nFrames - 1 := Nat.div_mul_le_self _ _
  omega

lemma mem_fixedWindowSegments (rate nFrames k : Nat)
    (hk : k < numWindows nFrames (effectiveStep rate))
    (hkeep : ¬(2 * framesToRead rate nFrames (k * effectiveStep rate) < 3 * rate ∧ 0 < k)) :
    (k * effectiveStep rate, framesToRead rate nFrames (k * effectiveStep rate)) ∈
      fixedWindowSegments rate nFrames := by
  refine List.mem_filterMap.mpr ⟨k, List.mem_range.mpr hk, ?_⟩
  unfold windowAt
  rw [if_neg hkeep]

/-- Any frame reachable from a window start within the 6-second window and
inside the recording is covered by some produced segment; the window index
descends past skipped trailing windows. -/
lemma coverage_aux (rate nFrames f : Nat) (hr : 0 < rate) (hf : f < nFrames) :
    ∀ k, k < numWindows nFrames (effectiveStep rate) →
      k * effectiveStep rate ≤ f →
      2 * f < 2 * (k * effectiveStep rate) + 12 * rate →
      ∃ p ∈ fixedWindowSegments rate nFrames, p.1 ≤ f ∧ f < p.1 + p.2 := by
  intro k
  induction k with
  | zero =>
    intro hk _ hinv
    have h0 : (0 : Nat) * effectiveStep rate = 0 := by omega
    rw [h0] at hinv
    refine ⟨(0 * effectiveStep rate, framesToRead rate nFrames (0 * effectiveStep rate)),
      mem_fixedWindowSegments rate nFrames 0 hk (by simp), by simp, ?_⟩
    rw [h0, Nat.zero_add]
    unfold framesToRead segmentFrames
    rw [Nat.sub_zero, lt_min_iff]
    exact ⟨by omega, hf⟩
  | succ n ih =>
    intro hk hle hinv
    have hstep : 0 < effectiveStep rate := effectiveStep_pos rate hr
    have h2s : 2 * effectiveStep rate ≤ 3 * rate := two_effectiveStep_le rate
    have hik : (n + 1) * effectiveStep rate < nFrames :=
      mul_lt_of_lt_numWindows (effectiveStep rate) (n + 1) nFrames hstep (by omega) hk
    have hsucc : (n + 1) * effectiveStep rate = n * effectiveStep rate + effectiveStep rate :=
      Nat.succ_mul n (effectiveStep rate)
    by_cases hkeep :
        2 * framesToRead rate nFrames ((n + 1) * effectiveStep rate) < 3 * rate ∧ 0 < n + 1
    · -- This trailing window is skipped: its remainder is short, so the
      -- previous window already reaches the end of the recording; descend.
      have hrem : 2 * (nFrames - (n + 1) * effectiveStep rate) < 3 * rate := by
        rcases hkeep with ⟨hlt, -⟩
        unfold framesToRead segmentFrames at hlt
        by_cases hmin : rate * 6 ≤ nFrames - (n + 1) * effectiveStep rate
        · rw [min_eq_left hmin] at hlt
          omega
        · rwa [min_eq_right (le_of_not_le hmin)] at hlt
      apply ih
      · omega
      · omega
      · omega
    · -- This window is kept and covers `f`.
      refine ⟨((n + 1) * effectiveStep rate,
        framesToRead rate nFrames ((n + 1) * effectiveStep rate)),
        mem_fixedWindowSegments rate nFrames (n + 1) hk hkeep, hle, ?_⟩
      unfold framesToRead segmentFrames
      by_cases hmin : rate * 6 ≤ nFrames - (n + 1) * effectiveStep rate
      · rw [min_eq_left hmin]
        omega
      · rw [min_eq_right (le_of_not_le hmin)]
        omega

/-- Claim C6: in the fixed-window fallback, every produced segment starts
at a multiple of `effective_step = int(segment_frames * 0.25)` (the window
slides with a step of 25% of the window length) and reads
`min(segment_frames, n_frames - start)` frames; the produced segments
cover every frame of the recording (so a skipped short final remainder is
still inside the prior segment); and a non-initial window start whose
remainder is shorter than 1.5 s produces no segment of its own. -/
theorem C6_theorem (rate nFrames : Nat) (hr : 0 < rate) :
    (∀ p ∈ fixedWindowSegments rate nFrames,
        ∃ k, p = (k * effectiveStep rate,
          framesToRead rate nFrames (k * effectiveStep rate))) ∧
      (∀ f, f < nFrames →
        ∃ p ∈ fixedWindowSegments rate nFrames, p.1 ≤ f ∧ f < p.1 + p.2) ∧
      (∀ k, 0 < k → 2 * (nFrames - k * effectiveStep rate) < 3 * rate →
        ∀ p ∈ fixedWindowSegments rate nFrames, p.1 ≠ k * effectiveStep rate) := by
  have hstep : 0 < effectiveStep rate := effectiveStep_pos rate hr
  refine ⟨?_, ?_, ?_⟩
  · intro p hp
    obtain ⟨k, -, heq⟩ := List.mem_filterMap.mp hp
    unfold windowAt at heq
    split at heq
    · exact absurd heq (by simp)
    · exact ⟨k, (Option.some_inj.mp heq).symm⟩
  · intro f hf
    have h2s : 2 * effectiveStep rate ≤ 3 * rate := two_effectiveStep_le rate
    obtain ⟨q, r, hqr, hrlt⟩ : ∃ q r, f = effectiveStep rate * q + r ∧ r < effectiveStep rate :=
      ⟨f / effectiveStep rate, f % effectiveStep rate, (Nat.div_add_mod f _).symm,
        Nat.mod_lt f hstep⟩
    have hcm : effectiveStep rate * q = q * effectiveStep rate := Nat.mul_comm _ _
    have h1 : q * effectiveStep rate ≤ f := by omega
    have hkN : q < numWindows nFrames (effectiveStep rate) :=
      lt_numWindows_of (effectiveStep rate) q nFrames hstep (by omega)
    exact coverage_aux rate nFrames f hr hf q hkN h1 (by omega)
  · intro k hk0 hrem p hp hpeq
    obtain ⟨k2, -, heq⟩ := List.mem_filterMap.mp hp
    unfold windowAt at heq
    split at heq
    · exact absurd heq (by simp)
    case isFalse hcond =>
      have hp1 : p.1 = k2 * effectiveStep rate := by
        rw [← Option.some_inj.mp heq]
      have hk2 : k2 = k := Nat.eq_of_mul_eq_mul_right hstep (by rw [← hp1, hpeq])
      apply hcond
      subst hk2
      refine ⟨?_, hk0⟩
      calc 2 * framesToRead rate nFrames (k2 * effectiveStep rate)
          ≤ 2 * (nFrames - k2 * effectiveStep rate) :=
            Nat.mul_le_mul_left 2 (Nat.min_le_right _ _)
        _ < 3 * rate := hrem

/-- Claim C6, witness: at 16 kHz on a 200000-frame (12.5 s) recording the
produced fixed windows cover the final frame, although the last window
start (192000, remainder 0.5 s) was skipped. -/
theorem C6_witness :
    ∃ p ∈ fixedWindowSegments 16000 200000, p.1 ≤ 199999 ∧ 199999 < p.1 + p.2 :=
  (C6_theorem 16000 200000 (by decide)).2.1 199999 (by decide)

end AudioTranslator
